import Mathlib

/-!
# Verification of sapcli `sap/adt/atc.py` (ATC ADT wrappers)

Shallow embedding of `src/sap/adt/atc.py`.  The HTTP transport collaborator
(`connection.execute`) is modelled as an oracle mapping the request history and
the current request to either a transport error or a response; the response
carries its body text and, for XML endpoints, the parsed document tree (the
external streaming XML parser is abstracted by this field: `none` stands for a
malformed body).  The marshalling engine (`sap.adt.marshalling.Marshal`) and
the binding annotations are code of the repository that is not under `src/`;
their behaviour on the object kinds declared in `atc.py` is modelled from the
spec (section 4.5) and marked `Modelled from the spec:` below.
-/

/-- XML document tree: an element with a (qualified) name, attributes in
document order, and children; or a text run. -/
inductive Xml where
  | elem (name : String) (attrs : List (String × String)) (children : List Xml)
  | text (s : String)

/-- Attribute lookup on an element (first match; attribute names are unique
in well-formed XML).  A text run has no attributes. -/
def Xml.attr (x : Xml) (n : String) : Option String :=
  match x with
  | .elem _ attrs _ => (attrs.find? (fun p => p.1 = n)).map Prod.snd
  | .text _ => none

/-- Children of an element (empty for a text run). -/
def Xml.childList (x : Xml) : List Xml :=
  match x with
  | .elem _ _ cs => cs
  | .text _ => []

/-- The element's name (empty for a text run). -/
def Xml.nameOf (x : Xml) : String :=
  match x with
  | .elem n _ _ => n
  | .text _ => ""

/-- Whether this node is an element with the given qualified name. -/
def Xml.isElemNamed (n : String) (x : Xml) : Bool :=
  match x with
  | .elem m _ _ => m = n
  | .text _ => false

/-- First child element with the given qualified name. -/
def Xml.firstChildNamed (x : Xml) (n : String) : Option Xml :=
  x.childList.find? (Xml.isElemNamed n)

/-- All child elements with the given qualified name, in document order. -/
def Xml.childrenNamed (x : Xml) (n : String) : List Xml :=
  x.childList.filter (Xml.isElemNamed n)

/-- Character content of an element: its direct text runs concatenated
(text is concatenated across split runs). -/
def Xml.textContent (x : Xml) : String :=
  x.childList.foldl
    (fun acc c => match c with | .text s => acc ++ s | .elem _ _ _ => acc) ""

/-- One HTTP request as issued through `connection.execute(method, path,
params, accept, content_type, body)` in `atc.py`.  The body of a POST is the
serialized XML document (held as a tree, see the module comment). -/
structure Request where
  method : String
  path : String
  params : List (String × String)
  accept : String
  contentType : Option String
  body : Option Xml

/-- A transport response: `text` is the raw body (`resp.text` in the code),
`parsed` its XML document tree when the body is well-formed XML
(abstraction of the external XML parser; `none` = malformed). -/
structure Response where
  text : String
  parsed : Option Xml

/-- The transport collaborator: given the requests already issued (the
history makes the oracle expressive enough to answer differently per call)
and the current request, either a transport error of type `ε` or a
response.  Transport errors are opaque values passed through unchanged. -/
def Net (ε : Type) : Type := List Request → Request → Except ε Response

/-- Errors surfacing from `run_for`: a transport failure carrying the
collaborator's error unchanged, or an XML parse failure raised by the
deserializer on a malformed body. -/
inductive AtcError (ε : Type) where
  | transport (e : ε)
  | parse

/-- `ChecksRunner` instance state: the fields set by `__init__`
(`self._connection`, `self._variant`, `self._worklist_id`). -/
structure ChecksRunner (ε : Type) where
  connection : Net ε
  variant : String
  worklist_id : Option String

/-- `ChecksRunner.__init__(connection, variant)`: stores the connection and
variant and leaves the cached work-list identifier unset. -/
def ChecksRunner.new (connection : Net ε) (variant : String) : ChecksRunner ε :=
  { connection := connection, variant := variant, worklist_id := none }

/-- The work-list creation request issued inside `_get_id`:
`POST 'atc/worklists'` with `params={'checkVariant': variant}` and
`accept='text/plain'`. -/
def createRequest (variant : String) : Request :=
  { method := "POST", path := "atc/worklists",
    params := [("checkVariant", variant)], accept := "text/plain",
    contentType := none, body := none }

/-- `ChecksRunner._get_id` as a state transformer: returns the call's result
(or the propagated transport error), the updated instance state, and the
request trace extended by every request issued.  Mirrors the source: if the
cached identifier is unset, POST `atc/worklists`, take the identifier to be
the response body text, cache it; otherwise return the cache with no request. -/
def ChecksRunner.get_id (st : ChecksRunner ε) (tr : List Request) :
    Except ε String × ChecksRunner ε × List Request :=
  match st.worklist_id with
  | some i => (.ok i, st, tr)
  | none =>
    let req := createRequest st.variant
    match st.connection tr req with
    | .error e => (.error e, st, tr ++ [req])
    | .ok resp =>
      (.ok resp.text, { st with worklist_id := some resp.text }, tr ++ [req])

/-- `XMLNamespace` value (external `sap.adt.objects.XMLNamespace`): a short
name bound to a URI. -/
structure XMLNamespace where
  name : String
  uri : String
deriving DecidableEq, Repr

/-- `XMLNS_ATC = XMLNamespace('atc', 'http://www.sap.com/adt/atc')`. -/
def XMLNS_ATC : XMLNamespace := ⟨"atc", "http://www.sap.com/adt/atc"⟩

/-- `XMLNS_ATCINFO = XMLNamespace('atcinfo', 'http://www.sap.com/adt/atc/info')`. -/
def XMLNS_ATCINFO : XMLNamespace := ⟨"atcinfo", "http://www.sap.com/adt/atc/info"⟩

/-- `XMLNS_ATCWORKLIST = XMLNamespace('atcworklist',
'http://www.sap.com/adt/atc/worklist')`. -/
def XMLNS_ATCWORKLIST : XMLNamespace :=
  ⟨"atcworklist", "http://www.sap.com/adt/atc/worklist"⟩

/-- The parts of `ADTObjectType` the marshalling claims use: the owning XML
namespace, the mime type, and the root element name (the source also carries
`code`, `basepath` and `typeuris`, all `None` for the kinds in `atc.py`). -/
structure ADTObjectType where
  xmlns : XMLNamespace
  mimetype : String
  xmlelement : String
deriving DecidableEq, Repr

/-- The namespace-qualified root name an object kind's documents root at. -/
def ADTObjectType.qualifiedRoot (t : ADTObjectType) : String :=
  t.xmlns.name ++ ":" ++ t.xmlelement

/-- `RunRequest`: worklist run request with the object-set selection
(`self._sets`, an external `ADTObjectSets` held here as its serialized XML
children) and the `max_verdicts` number bound to attribute
`maximumVerdicts`. -/
structure RunRequest where
  sets : List Xml
  max_verdicts : Nat

/-- `RunRequest.objtype = ADTObjectType(None, None, XMLNS_ATC,
'application/xml', None, 'run')`. -/
def RunRequest.objtype : ADTObjectType := ⟨XMLNS_ATC, "application/xml", "run"⟩

/-- Modelled from the spec: `Marshal().serialize` (the marshalling engine is
not under `src/`), section 4.5, applied to the bindings `RunRequest`
declares in `atc.py`: the document roots at the namespace-qualified `run`
element of the atc namespace, the `maximumVerdicts` attribute carries the
stringified count, and the single declared child element `objectSets` wraps
the object-set selection. -/
def RunRequest.serialize (r : RunRequest) : Xml :=
  .elem RunRequest.objtype.qualifiedRoot
    [("maximumVerdicts", toString r.max_verdicts)]
    [.elem "objectSets" [] r.sets]

/-- A fresh `RunRequest`-equivalent deserialization target: fields unset
until populated. -/
structure RunRequestTarget where
  max_verdicts : Option Nat
  sets : List Xml

/-- Modelled from the spec: the fixed, locale-independent decimal format
count-like attributes round-trip through (section 4.5): a non-empty string
of decimal digits parses to the number it denotes, anything else to
nothing. -/
def parseDecimal (s : String) : Option Nat :=
  if s.data ≠ [] ∧ s.data.all (fun c => c.isDigit) then
    some (s.data.foldl (fun n c => n * 10 + (c.toNat - 48)) 0)
  else none

/-- Modelled from the spec: deserializing a run-request document into a
fresh `RunRequest`-equivalent target (section 4.5): the attribute binding
reads `maximumVerdicts` from the root (missing attribute leaves the field
unset) and parses it with the fixed locale-independent decimal format the
spec gives count-like attributes; the element binding takes the `objectSets`
child's content. -/
def RunRequest.deserialize (x : Xml) : RunRequestTarget :=
  { max_verdicts := (x.attr "maximumVerdicts").bind parseDecimal,
    sets := ((x.firstChildNamed "objectSets").map Xml.childList).getD [] }

/-- `ATCInfo`: `atcinfo:info` node with text-node bindings `atcinfo:type`
and `atcinfo:description`. -/
structure ATCInfo where
  typ : Option String
  description : Option String
deriving DecidableEq, Repr

/-- Modelled from the spec: deserializing one `atcinfo:info` element
(section 4.5 text-node binding: first child element with the qualified name,
character content concatenated; missing child leaves the field unset). -/
def ATCInfo.deserialize (x : Xml) : ATCInfo :=
  { typ := (x.firstChildNamed "atcinfo:type").map Xml.textContent,
    description := (x.firstChildNamed "atcinfo:description").map Xml.textContent }

/-- Modelled from the spec: `ATCInfoList = XmlContainer.define('atcinfo:info',
ATCInfo)` deserialization — the container collects one `ATCInfo` per
`atcinfo:info` child, in document order (empty when there are none). -/
def ATCInfoList.deserialize (x : Xml) : List ATCInfo :=
  (x.childrenNamed "atcinfo:info").map ATCInfo.deserialize

/-- `RunResponse`: text-node bindings `atcworklist:worklistId` and
`atcworklist:worklistTimestamp`, and node property `atcworklist:infos` with
factory `ATCInfoList` (`none` = absent/unset, `some` = present). -/
structure RunResponse where
  worklist_id : Option String
  timestamp : Option String
  infos : Option (List ATCInfo)
deriving DecidableEq, Repr

/-- Modelled from the spec: deserializing a `RunResponse` document
(section 4.5): text-node bindings capture the first matching child's
character content; the element binding constructs the `ATCInfoList`
container via its factory when the `atcworklist:infos` child is present,
leaving the field unset otherwise. -/
def RunResponse.deserialize (x : Xml) : RunResponse :=
  { worklist_id := (x.firstChildNamed "atcworklist:worklistId").map Xml.textContent,
    timestamp := (x.firstChildNamed "atcworklist:worklistTimestamp").map Xml.textContent,
    infos := (x.firstChildNamed "atcworklist:infos").map ATCInfoList.deserialize }

/-- `WorkListObjectSet`: `atcworklist:objectSet` node, attribute bindings
name/title/kind. -/
structure WorkListObjectSet where
  name : Option String
  title : Option String
  kind : Option String
deriving DecidableEq, Repr

/-- Modelled from the spec: deserializing one `atcworklist:objectSet`
element (attribute bindings; missing attribute leaves the field unset). -/
def WorkListObjectSet.deserialize (x : Xml) : WorkListObjectSet :=
  { name := x.attr "atcworklist:name", title := x.attr "atcworklist:title",
    kind := x.attr "atcworklist:kind" }

/-- `ATCFinding`: `atcfinding:finding` node, nine attribute bindings. -/
structure ATCFinding where
  uri : Option String
  location : Option String
  priority : Option String
  check_id : Option String
  check_title : Option String
  message_id : Option String
  message_title : Option String
  exemption_approval : Option String
  exemption_kind : Option String
deriving DecidableEq, Repr

/-- Modelled from the spec: deserializing one `atcfinding:finding` element
(attribute bindings). -/
def ATCFinding.deserialize (x : Xml) : ATCFinding :=
  { uri := x.attr "adtcore:uri", location := x.attr "atcfinding:location",
    priority := x.attr "atcfinding:priority",
    check_id := x.attr "atcfinding:checkId",
    check_title := x.attr "atcfinding:checkTitle",
    message_id := x.attr "atcfinding:messageId",
    message_title := x.attr "atcfinding:messageTitle",
    exemption_approval := x.attr "atcfinding:exemptionApproval",
    exemption_kind := x.attr "atcfinding:exemptionKind" }

/-- `ATCObject`: `atcobject:object` node, attribute bindings plus the
`atcobject:findings` container property. -/
structure ATCObject where
  uri : Option String
  typ : Option String
  name : Option String
  package_name : Option String
  author : Option String
  object_type_id : Option String
  findings : Option (List ATCFinding)
deriving DecidableEq, Repr

/-- Modelled from the spec: deserializing one `atcobject:object` element;
the `atcobject:findings` child, when present, yields the
`ATCFindingList = XmlContainer.define('atcfinding:finding', ATCFinding)`
container of its `atcfinding:finding` children. -/
def ATCObject.deserialize (x : Xml) : ATCObject :=
  { uri := x.attr "adtcore:uri", typ := x.attr "adtcore:type",
    name := x.attr "adtcore:name", package_name := x.attr "adtcore:packageName",
    author := x.attr "atcobject:author",
    object_type_id := x.attr "atcobject:objectTypeId",
    findings := (x.firstChildNamed "atcobject:findings").map
      (fun f => (f.childrenNamed "atcfinding:finding").map ATCFinding.deserialize) }

/-- `WorkList`: `atcworklist:worklist` node, attribute bindings plus the
`atcworklist:objectSets` and `atcworklist:objects` container properties. -/
structure WorkList where
  worklist_id : Option String
  timestamp : Option String
  used_objectset : Option String
  object_set_is_complete : Option String
  object_sets : Option (List WorkListObjectSet)
  objects : Option (List ATCObject)
deriving DecidableEq, Repr

/-- Modelled from the spec: deserializing a `WorkList` document; the two
container properties are constructed via their factories
(`WorkListObjectSetList = XmlContainer.define('atcworklist:objectSet', ...)`
and `ATCObjectList = XmlContainer.define('atcobject:object', ...)`) when
their wrapper child is present. -/
def WorkList.deserialize (x : Xml) : WorkList :=
  { worklist_id := x.attr "atcworklist:id",
    timestamp := x.attr "atcworklist:timestamp",
    used_objectset := x.attr "atcworklist:usedObjectSet",
    object_set_is_complete := x.attr "atcworklist:objectSetIsComplete",
    object_sets := (x.firstChildNamed "atcworklist:objectSets").map
      (fun s => (s.childrenNamed "atcworklist:objectSet").map WorkListObjectSet.deserialize),
    objects := (x.firstChildNamed "atcworklist:objects").map
      (fun s => (s.childrenNamed "atcobject:object").map ATCObject.deserialize) }

/-- `WorkListRunResult` named tuple: `(run_response, worklist)`. -/
structure WorkListRunResult where
  run_response : RunResponse
  worklist : WorkList
deriving DecidableEq, Repr

/-- The run-submission request issued inside `run_for`:
`POST 'atc/runs'` with `params={'worklistId': worklist_id}`,
`accept='application/xml'`, `content_type='application/xml'` and the
serialized run request as body. -/
def runsRequest (worklist_id : String) (body : Xml) : Request :=
  { method := "POST", path := "atc/runs",
    params := [("worklistId", worklist_id)], accept := "application/xml",
    contentType := some "application/xml", body := some body }

/-- The result-fetch request issued inside `run_for`:
`GET f'atc/worklists/{worklist_id}'` with
`params={'includeExemptedFindings': 'false'}` and
`accept='application/atc.worklist.v1+xml'`. -/
def worklistRequest (worklist_id : String) : Request :=
  { method := "GET", path := "atc/worklists/" ++ worklist_id,
    params := [("includeExemptedFindings", "false")],
    accept := "application/atc.worklist.v1+xml",
    contentType := none, body := none }

/-- `ChecksRunner.run_for(obj_sets, max_verdicts=100)` as a state
transformer, mirroring the source line by line: build the `RunRequest`,
serialize it, obtain the work-list identifier via `_get_id`, POST
`atc/runs` correlated to it, deserialize the `RunResponse`, GET
`atc/worklists/{id}` excluding exempted findings, deserialize the
`WorkList`, return the pair.  Transport errors from any step and parse
failures from either deserialization propagate; the trace records every
request issued. -/
def ChecksRunner.run_for (st : ChecksRunner ε) (tr : List Request)
    (obj_sets : List Xml) (max_verdicts : Nat := 100) :
    Except (AtcError ε) WorkListRunResult × ChecksRunner ε × List Request :=
  let run_request : RunRequest := { sets := obj_sets, max_verdicts := max_verdicts }
  let request := run_request.serialize
  match st.get_id tr with
  | (.error e, st1, tr1) => (.error (.transport e), st1, tr1)
  | (.ok worklist_id, st1, tr1) =>
    let req2 := runsRequest worklist_id request
    match st1.connection tr1 req2 with
    | .error e => (.error (.transport e), st1, tr1 ++ [req2])
    | .ok resp2 =>
      match resp2.parsed with
      | none => (.error .parse, st1, tr1 ++ [req2])
      | some doc2 =>
        let run_response := RunResponse.deserialize doc2
        let req3 := worklistRequest worklist_id
        match st1.connection (tr1 ++ [req2]) req3 with
        | .error e => (.error (.transport e), st1, tr1 ++ [req2, req3])
        | .ok resp3 =>
          match resp3.parsed with
          | none => (.error .parse, st1, tr1 ++ [req2, req3])
          | some doc3 =>
            (.ok ⟨run_response, WorkList.deserialize doc3⟩, st1,
             tr1 ++ [req2, req3])

/-- `attrs.get(n, None)` on a SAX attribute mapping, modelled as first-match
lookup in a list of pairs (attribute names are unique in the mapping). -/
def attrsGet (attrs : List (String × String)) (n : String) : Option String :=
  (attrs.find? (fun p => p.1 = n)).map Prod.snd

/-- `Customizing`: ATC customizing with the `system_check_variant` target
attribute, `None` until set. -/
structure Customizing where
  system_check_variant : Option String
deriving DecidableEq, Repr

/-- `ATCCustomizingXMLHandler.startElement(name, attrs)`: when the element
is a `property` whose `name` attribute is `systemCheckVariant`, set
`customizing.system_check_variant` to the element's `value` attribute
(`None` when absent); otherwise leave the customizing unchanged. -/
def ATCCustomizingXMLHandler.startElement (cust : Customizing) (name : String)
    (attrs : List (String × String)) : Customizing :=
  if name = "property" ∧ attrsGet attrs "name" = some "systemCheckVariant" then
    { cust with system_check_variant := attrsGet attrs "value" }
  else
    cust

mutual

/-- The SAX `startElement` event stream of a document: one `(name, attrs)`
event per element, in document order (preorder). -/
def Xml.startEvents : Xml → List (String × List (String × String))
  | .text _ => []
  | .elem n a cs => (n, a) :: startEventsList cs

/-- `startElement` events of a forest of sibling nodes, left to right. -/
def startEventsList : List Xml → List (String × List (String × String))
  | [] => []
  | x :: xs => x.startEvents ++ startEventsList xs

end

/-- `fetch_customizing`, applied to the response document of the
`GET atc/customizing` request: constructs a fresh `Customizing()` and runs
the SAX parse, which fires `startElement` once per element in document
order. -/
def fetch_customizing (doc : Xml) : Customizing :=
  doc.startEvents.foldl
    (fun c ev => ATCCustomizingXMLHandler.startElement c ev.1 ev.2) ⟨none⟩

/-- Program counter of one thread executing `_get_id`, one abstract step
per source line: the `if self._worklist_id is None` check, the blocking
`connection.execute` call (during which CPython releases the lock, so other
threads run), the `self._worklist_id = resp.text` assignment, and the
`return self._worklist_id`. -/
inductive GetIdPc where
  | atCheck
  | atExec
  | atAssign (respText : String)
  | atReturn
  | finished (ret : Option String)
deriving DecidableEq, Repr

/-- Shared state of two threads concurrently calling `_get_id` on one
`ChecksRunner`: the shared cached identifier, the number of work-list
creation requests issued so far, and each thread's program counter. -/
structure TwoCallerState where
  cache : Option String
  creations : Nat
  pc1 : GetIdPc
  pc2 : GetIdPc
deriving DecidableEq, Repr

/-- One atomic step of a thread executing `_get_id` (`resp` is the body
text the transport returns to this thread's creation request).  There is no
lock in the source, so any interleaving of these steps is possible. -/
def getIdStep (resp : String) (cache : Option String) (creations : Nat)
    (pc : GetIdPc) : Option String × Nat × GetIdPc :=
  match pc with
  | .atCheck =>
    match cache with
    | some _ => (cache, creations, .atReturn)
    | none => (cache, creations, .atExec)
  | .atExec => (cache, creations + 1, .atAssign resp)
  | .atAssign r => (some r, creations, .atReturn)
  | .atReturn => (cache, creations, .finished cache)
  | .finished r => (cache, creations, .finished r)

/-- Advance one of the two threads (`false` = thread 1, `true` = thread 2)
by one atomic step; `r1`, `r2` are the transport's body texts for the two
threads' creation requests. -/
def scheduleStep (r1 r2 : String) (s : TwoCallerState) (who : Bool) :
    TwoCallerState :=
  if who then
    let (c, n, pc) := getIdStep r2 s.cache s.creations s.pc2
    { s with cache := c, creations := n, pc2 := pc }
  else
    let (c, n, pc) := getIdStep r1 s.cache s.creations s.pc1
    { s with cache := c, creations := n, pc1 := pc }

/-- Run a schedule (a list of thread choices) from the given state. -/
def runSchedule (r1 r2 : String) (s : TwoCallerState) (sched : List Bool) :
    TwoCallerState :=
  sched.foldl (scheduleStep r1 r2) s

/-- Two concurrent callers entering `_get_id` on a fresh runner. -/
def twoCallersStart : TwoCallerState :=
  { cache := none, creations := 0, pc1 := .atCheck, pc2 := .atCheck }

/-- A demo transport returning the same well-formed response to every
request (used to instantiate hypotheses at concrete inputs). -/
def demoNet : Net Unit :=
  fun _ _ => .ok { text := "0042", parsed := some (.elem "d" [] []) }

/-- A transport failing every request. -/
def failNet : Net Unit := fun _ _ => .error ()

/-- A transport failing every GET and answering every POST. -/
def getFailNet : Net Unit :=
  fun _ req =>
    if req.method = "GET" then .error ()
    else .ok { text := "0042", parsed := some (.elem "d" [] []) }

/-- The document every `demoNet` response parses to. -/
def demoDoc : Xml := .elem "d" [] []

/-- The response `demoNet` returns to every request. -/
def demoResp : Response := { text := "0042", parsed := some demoDoc }

/-- A transport failing every GET and every request issued on an empty
history, and answering other POSTs. -/
def demoFailNet : Net Unit :=
  fun tr req =>
    if req.method == "GET" || tr.isEmpty then .error ()
    else .ok demoResp

/-- One public operation on a `ChecksRunner` (obtain the identifier, or run
checks for an object-set selection with a verdict bound). -/
inductive RunnerOp where
  | getId
  | runFor (obj_sets : List Xml) (max_verdicts : Nat)

/-- Apply one operation to a runner state and trace, keeping the resulting
state and trace (the call's value is dropped; failed calls keep their
state/trace too). -/
def ChecksRunner.applyOp (st : ChecksRunner ε) (tr : List Request) :
    RunnerOp → ChecksRunner ε × List Request
  | .getId => (st.get_id tr).2
  | .runFor o mv => (st.run_for tr o mv).2

/-- Apply a sequence of operations left to right. -/
def ChecksRunner.applyOps (st : ChecksRunner ε) (tr : List Request) :
    List RunnerOp → ChecksRunner ε × List Request
  | [] => (st, tr)
  | op :: ops => ChecksRunner.applyOps (st.applyOp tr op).1 (st.applyOp tr op).2 ops

/-- Whether a SAX `startElement` event is a `property` element whose `name`
attribute equals `systemCheckVariant`. -/
def isSCVProperty (ev : String × List (String × String)) : Bool :=
  ev.1 == "property" && attrsGet ev.2 "name" == some "systemCheckVariant"

/-- The run-response document of scenario C5: `worklistId` text `"4711"`,
`worklistTimestamp` text `"20230101000000"`, and zero `atcinfo:info`
elements (an empty `atcworklist:infos` node). -/
def runResponseDoc : Xml :=
  .elem "atcworklist:worklistRun" []
    [.elem "atcworklist:worklistId" [] [.text "4711"],
     .elem "atcworklist:worklistTimestamp" [] [.text "20230101000000"],
     .elem "atcworklist:infos" [] []]

/-- How many creation requests a thread at this program counter may still
issue (1 before its `connection.execute` step has run, 0 afterwards or
after taking the cached branch). -/
def canCreate : GetIdPc → Nat
  | .atCheck => 1
  | .atExec => 1
  | .atAssign _ => 0
  | .atReturn => 0
  | .finished _ => 0

/-- Helper: `_get_id` on a state with a cached identifier returns the cache
and issues no request. -/
theorem get_id_cached_eq {ε : Type} (net : Net ε) (v i : String)
    (tr : List Request) :
    ChecksRunner.get_id ⟨net, v, some i⟩ tr = (.ok i, ⟨net, v, some i⟩, tr) :=
  rfl

/-- Helper: `_get_id` on a state without a cached identifier issues the
creation request, caches the response body text and returns it. -/
theorem get_id_uncached_eq {ε : Type} (net : Net ε) (v : String)
    (tr : List Request) (resp : Response)
    (h : net tr (createRequest v) = .ok resp) :
    ChecksRunner.get_id ⟨net, v, none⟩ tr =
      (.ok resp.text, ⟨net, v, some resp.text⟩, tr ++ [createRequest v]) := by
  simp [ChecksRunner.get_id, h]

/-- Helper: `_get_id` on a state without a cached identifier propagates a
transport error and leaves the state unchanged. -/
theorem get_id_uncached_error_eq {ε : Type} (net : Net ε) (v : String)
    (tr : List Request) (e : ε)
    (h : net tr (createRequest v) = .error e) :
    ChecksRunner.get_id ⟨net, v, none⟩ tr =
      (.error e, ⟨net, v, none⟩, tr ++ [createRequest v]) := by
  simp [ChecksRunner.get_id, h]

/-- Helper: the success path of `run_for`, given the outcome of `_get_id`
and successful, well-formed submit and fetch responses. -/
theorem run_for_ok_eq {ε : Type} (st st1 : ChecksRunner ε)
    (tr tr1 : List Request) (obj_sets : List Xml) (mv : Nat) (wid : String)
    (resp2 resp3 : Response) (x2 x3 : Xml)
    (hid : st.get_id tr = (.ok wid, st1, tr1))
    (h2 : st1.connection tr1
      (runsRequest wid (RunRequest.serialize ⟨obj_sets, mv⟩)) = .ok resp2)
    (hp2 : resp2.parsed = some x2)
    (h3 : st1.connection
      (tr1 ++ [runsRequest wid (RunRequest.serialize ⟨obj_sets, mv⟩)])
      (worklistRequest wid) = .ok resp3)
    (hp3 : resp3.parsed = some x3) :
    st.run_for tr obj_sets mv =
      (.ok ⟨RunResponse.deserialize x2, WorkList.deserialize x3⟩, st1,
       tr1 ++ [runsRequest wid (RunRequest.serialize ⟨obj_sets, mv⟩),
               worklistRequest wid]) := by
  simp [ChecksRunner.run_for, hid, h2, hp2, h3, hp3]

/--
C3: on an orchestrator whose cache is unset, `_get_id` issues exactly one
creation request — `POST 'atc/worklists'` with the check-variant name fixed
at construction as the `checkVariant` parameter, accepting `text/plain` —
takes the identifier to be the response body text unmodified, caches it and
returns it; on an orchestrator with a cached identifier it returns the
cache unchanged with no network call.
-/
theorem ChecksRunner.get_id_spec {ε : Type} (net : Net ε) (v i : String)
    (tr tr' : List Request) (resp : Response)
    (hnet : net tr (createRequest v) = .ok resp) :
    (ChecksRunner.new net v).get_id tr =
      (.ok resp.text, ⟨net, v, some resp.text⟩, tr ++ [createRequest v])
    ∧ createRequest v =
      { method := "POST", path := "atc/worklists",
        params := [("checkVariant", v)], accept := "text/plain",
        contentType := none, body := none }
    ∧ ChecksRunner.get_id ⟨net, v, some i⟩ tr' =
      (.ok i, ⟨net, v, some i⟩, tr') :=
  ⟨get_id_uncached_eq net v tr resp hnet, rfl, get_id_cached_eq net v i tr'⟩

/-- Witness for C3 at a concrete transport, variant and traces. -/
theorem ChecksRunner.get_id_spec_witness :
    (ChecksRunner.new demoNet "STANDARD").get_id [] =
      (.ok "0042", ⟨demoNet, "STANDARD", some "0042"⟩,
       [createRequest "STANDARD"])
    ∧ createRequest "STANDARD" =
      { method := "POST", path := "atc/worklists",
        params := [("checkVariant", "STANDARD")], accept := "text/plain",
        contentType := none, body := none }
    ∧ ChecksRunner.get_id ⟨demoNet, "STANDARD", some "0042"⟩
        [createRequest "STANDARD"] =
      (.ok "0042", ⟨demoNet, "STANDARD", some "0042"⟩,
       [createRequest "STANDARD"]) :=
  ChecksRunner.get_id_spec demoNet "STANDARD" "0042" [] [createRequest "STANDARD"]
    { text := "0042", parsed := some (.elem "d" [] []) } rfl

/--
C7: if the creation request inside `_get_id` fails, the cached identifier
remains unset exactly as before the call (no partially-obtained identifier
is retained), and a subsequent successful invocation retries identifier
creation from scratch.
-/
theorem ChecksRunner.get_id_failure_keeps_cache_unset {ε : Type}
    (net : Net ε) (v : String) (tr tr' : List Request) (e : ε)
    (resp : Response)
    (hfail : net tr (createRequest v) = .error e)
    (hretry : net tr' (createRequest v) = .ok resp) :
    ChecksRunner.get_id ⟨net, v, none⟩ tr =
      (.error e, ⟨net, v, none⟩, tr ++ [createRequest v])
    ∧ ChecksRunner.get_id ⟨net, v, none⟩ tr' =
      (.ok resp.text, ⟨net, v, some resp.text⟩, tr' ++ [createRequest v]) :=
  ⟨get_id_uncached_error_eq net v tr e hfail,
   get_id_uncached_eq net v tr' resp hretry⟩

/-- Witness for C7: a transport failing POSTs on an empty history and
succeeding afterwards. -/
theorem ChecksRunner.get_id_failure_keeps_cache_unset_witness :
    ChecksRunner.get_id
        ⟨fun tr _ => if tr.isEmpty then .error () else
          .ok { text := "0042", parsed := none }, "STANDARD", none⟩ [] =
      (.error (),
       ⟨fun tr _ => if tr.isEmpty then .error () else
          .ok { text := "0042", parsed := none }, "STANDARD", none⟩,
       [createRequest "STANDARD"])
    ∧ ChecksRunner.get_id
        ⟨fun tr _ => if tr.isEmpty then .error () else
          .ok { text := "0042", parsed := none }, "STANDARD", none⟩
        [createRequest "STANDARD"] =
      (.ok "0042",
       ⟨fun tr _ => if tr.isEmpty then .error () else
          .ok { text := "0042", parsed := none }, "STANDARD",
        some "0042"⟩,
       [createRequest "STANDARD", createRequest "STANDARD"]) :=
  ChecksRunner.get_id_failure_keeps_cache_unset
    (fun tr _ => if tr.isEmpty then .error () else
      .ok { text := "0042", parsed := none })
    "STANDARD" [] [createRequest "STANDARD"] ()
    { text := "0042", parsed := none } rfl rfl

/--
C1: on one orchestrator, calling `_get_id` twice performs exactly one
creation request and both calls return the same identifier; calling
`run_for` twice issues exactly one work-list-creation request plus two
run-submission and two result-fetch requests, all four correlated requests
carrying the same cached identifier (`resp0.text`).
-/
theorem ChecksRunner.worklist_id_created_once {ε : Type} (net : Net ε)
    (v : String) (obj_sets : List Xml)
    (resp0 resp1 resp2 resp3 resp4 : Response) (x1 x2 x3 x4 : Xml)
    (h0 : net [] (createRequest v) = .ok resp0)
    (h1 : net [createRequest v]
      (runsRequest resp0.text (RunRequest.serialize ⟨obj_sets, 100⟩)) = .ok resp1)
    (hp1 : resp1.parsed = some x1)
    (h2 : net [createRequest v,
        runsRequest resp0.text (RunRequest.serialize ⟨obj_sets, 100⟩)]
      (worklistRequest resp0.text) = .ok resp2)
    (hp2 : resp2.parsed = some x2)
    (h3 : net [createRequest v,
        runsRequest resp0.text (RunRequest.serialize ⟨obj_sets, 100⟩),
        worklistRequest resp0.text]
      (runsRequest resp0.text (RunRequest.serialize ⟨obj_sets, 100⟩)) = .ok resp3)
    (hp3 : resp3.parsed = some x3)
    (h4 : net [createRequest v,
        runsRequest resp0.text (RunRequest.serialize ⟨obj_sets, 100⟩),
        worklistRequest resp0.text,
        runsRequest resp0.text (RunRequest.serialize ⟨obj_sets, 100⟩)]
      (worklistRequest resp0.text) = .ok resp4)
    (hp4 : resp4.parsed = some x4) :
    ((ChecksRunner.new net v).get_id [] =
        (.ok resp0.text, ⟨net, v, some resp0.text⟩, [createRequest v])
      ∧ ChecksRunner.get_id ⟨net, v, some resp0.text⟩ [createRequest v] =
        (.ok resp0.text, ⟨net, v, some resp0.text⟩, [createRequest v])
      ∧ List.countP (fun r => r.method == "POST" && r.path == "atc/worklists")
          [createRequest v] = 1)
    ∧ ((ChecksRunner.new net v).run_for [] obj_sets =
        (.ok ⟨RunResponse.deserialize x1, WorkList.deserialize x2⟩,
         ⟨net, v, some resp0.text⟩,
         [createRequest v,
          runsRequest resp0.text (RunRequest.serialize ⟨obj_sets, 100⟩),
          worklistRequest resp0.text])
      ∧ ChecksRunner.run_for ⟨net, v, some resp0.text⟩
          [createRequest v,
           runsRequest resp0.text (RunRequest.serialize ⟨obj_sets, 100⟩),
           worklistRequest resp0.text] obj_sets =
        (.ok ⟨RunResponse.deserialize x3, WorkList.deserialize x4⟩,
         ⟨net, v, some resp0.text⟩,
         [createRequest v,
          runsRequest resp0.text (RunRequest.serialize ⟨obj_sets, 100⟩),
          worklistRequest resp0.text,
          runsRequest resp0.text (RunRequest.serialize ⟨obj_sets, 100⟩),
          worklistRequest resp0.text])
      ∧ List.countP (fun r => r.method == "POST" && r.path == "atc/worklists")
          [createRequest v,
           runsRequest resp0.text (RunRequest.serialize ⟨obj_sets, 100⟩),
           worklistRequest resp0.text,
           runsRequest resp0.text (RunRequest.serialize ⟨obj_sets, 100⟩),
           worklistRequest resp0.text] = 1
      ∧ List.countP (fun r => r.method == "POST" && r.path == "atc/runs")
          [createRequest v,
           runsRequest resp0.text (RunRequest.serialize ⟨obj_sets, 100⟩),
           worklistRequest resp0.text,
           runsRequest resp0.text (RunRequest.serialize ⟨obj_sets, 100⟩),
           worklistRequest resp0.text] = 2
      ∧ List.countP (fun r => r.method == "GET")
          [createRequest v,
           runsRequest resp0.text (RunRequest.serialize ⟨obj_sets, 100⟩),
           worklistRequest resp0.text,
           runsRequest resp0.text (RunRequest.serialize ⟨obj_sets, 100⟩),
           worklistRequest resp0.text] = 2
      ∧ (runsRequest resp0.text (RunRequest.serialize ⟨obj_sets, 100⟩)).params =
          [("worklistId", resp0.text)]
      ∧ (worklistRequest resp0.text).path = "atc/worklists/" ++ resp0.text) := by
  have hg0 := get_id_uncached_eq net v [] resp0 h0
  have hg1 := get_id_cached_eq net v resp0.text [createRequest v]
  have hr1 := run_for_ok_eq (ChecksRunner.new net v) ⟨net, v, some resp0.text⟩
    [] ([createRequest v]) obj_sets 100 resp0.text resp1 resp2 x1 x2
    hg0 h1 hp1 h2 hp2
  have hr2 := run_for_ok_eq ⟨net, v, some resp0.text⟩ ⟨net, v, some resp0.text⟩
    [createRequest v,
     runsRequest resp0.text (RunRequest.serialize ⟨obj_sets, 100⟩),
     worklistRequest resp0.text]
    [createRequest v,
     runsRequest resp0.text (RunRequest.serialize ⟨obj_sets, 100⟩),
     worklistRequest resp0.text]
    obj_sets 100 resp0.text resp3 resp4 x3 x4
    (get_id_cached_eq net v resp0.text _) h3 hp3 h4 hp4
  refine ⟨⟨hg0, hg1, by simp [createRequest]⟩, ⟨hr1, hr2, ?_, ?_, ?_, rfl, rfl⟩⟩
  all_goals simp [createRequest, runsRequest, worklistRequest, List.countP_cons]



/-- Witness for C1 at the concrete transport `demoNet`, variant
`"STANDARD"` and an empty object-set selection. -/
theorem ChecksRunner.worklist_id_created_once_witness :
    ((ChecksRunner.new demoNet "STANDARD").get_id [] =
        (.ok "0042", ⟨demoNet, "STANDARD", some "0042"⟩,
         [createRequest "STANDARD"])
      ∧ ChecksRunner.get_id ⟨demoNet, "STANDARD", some "0042"⟩
          [createRequest "STANDARD"] =
        (.ok "0042", ⟨demoNet, "STANDARD", some "0042"⟩,
         [createRequest "STANDARD"])
      ∧ List.countP (fun r => r.method == "POST" && r.path == "atc/worklists")
          [createRequest "STANDARD"] = 1)
    ∧ ((ChecksRunner.new demoNet "STANDARD").run_for [] [] =
        (.ok ⟨RunResponse.deserialize demoDoc, WorkList.deserialize demoDoc⟩,
         ⟨demoNet, "STANDARD", some "0042"⟩,
         [createRequest "STANDARD",
          runsRequest "0042" (RunRequest.serialize ⟨[], 100⟩),
          worklistRequest "0042"])
      ∧ ChecksRunner.run_for ⟨demoNet, "STANDARD", some "0042"⟩
          [createRequest "STANDARD",
           runsRequest "0042" (RunRequest.serialize ⟨[], 100⟩),
           worklistRequest "0042"] [] =
        (.ok ⟨RunResponse.deserialize demoDoc, WorkList.deserialize demoDoc⟩,
         ⟨demoNet, "STANDARD", some "0042"⟩,
         [createRequest "STANDARD",
          runsRequest "0042" (RunRequest.serialize ⟨[], 100⟩),
          worklistRequest "0042",
          runsRequest "0042" (RunRequest.serialize ⟨[], 100⟩),
          worklistRequest "0042"])
      ∧ List.countP (fun r => r.method == "POST" && r.path == "atc/worklists")
          [createRequest "STANDARD",
           runsRequest "0042" (RunRequest.serialize ⟨[], 100⟩),
           worklistRequest "0042",
           runsRequest "0042" (RunRequest.serialize ⟨[], 100⟩),
           worklistRequest "0042"] = 1
      ∧ List.countP (fun r => r.method == "POST" && r.path == "atc/runs")
          [createRequest "STANDARD",
           runsRequest "0042" (RunRequest.serialize ⟨[], 100⟩),
           worklistRequest "0042",
           runsRequest "0042" (RunRequest.serialize ⟨[], 100⟩),
           worklistRequest "0042"] = 2
      ∧ List.countP (fun r => r.method == "GET")
          [createRequest "STANDARD",
           runsRequest "0042" (RunRequest.serialize ⟨[], 100⟩),
           worklistRequest "0042",
           runsRequest "0042" (RunRequest.serialize ⟨[], 100⟩),
           worklistRequest "0042"] = 2
      ∧ (runsRequest "0042" (RunRequest.serialize ⟨[], 100⟩)).params =
          [("worklistId", "0042")]
      ∧ (worklistRequest "0042").path = "atc/worklists/" ++ "0042") :=
  ChecksRunner.worklist_id_created_once demoNet "STANDARD" []
    demoResp demoResp demoResp demoResp demoResp demoDoc demoDoc demoDoc demoDoc
    rfl rfl rfl rfl rfl rfl rfl rfl rfl

/--
C2: `run_for(obj_sets)` with `max_verdicts` defaulting to 100 performs, in
order: build a `RunRequest` from the verdict bound and the selection,
serialize it, ensure a work-list identifier exists, POST the serialized
body to `atc/runs` with the identifier as the `worklistId` parameter,
deserialize the response into a `RunResponse`, GET
`atc/worklists/{identifier}` with `includeExemptedFindings='false'`,
deserialize that into a `WorkList`, and return the pair.
-/
theorem ChecksRunner.run_for_steps {ε : Type} (net : Net ε) (v : String)
    (obj_sets : List Xml) (resp0 resp1 resp2 : Response) (x1 x2 : Xml)
    (h0 : net [] (createRequest v) = .ok resp0)
    (h1 : net [createRequest v]
      (runsRequest resp0.text (RunRequest.serialize ⟨obj_sets, 100⟩)) = .ok resp1)
    (hp1 : resp1.parsed = some x1)
    (h2 : net [createRequest v,
        runsRequest resp0.text (RunRequest.serialize ⟨obj_sets, 100⟩)]
      (worklistRequest resp0.text) = .ok resp2)
    (hp2 : resp2.parsed = some x2) :
    (ChecksRunner.new net v).run_for [] obj_sets =
      (.ok ⟨RunResponse.deserialize x1, WorkList.deserialize x2⟩,
       ⟨net, v, some resp0.text⟩,
       [createRequest v,
        runsRequest resp0.text (RunRequest.serialize ⟨obj_sets, 100⟩),
        worklistRequest resp0.text])
    ∧ runsRequest resp0.text (RunRequest.serialize ⟨obj_sets, 100⟩) =
      { method := "POST", path := "atc/runs",
        params := [("worklistId", resp0.text)], accept := "application/xml",
        contentType := some "application/xml",
        body := some (RunRequest.serialize ⟨obj_sets, 100⟩) }
    ∧ worklistRequest resp0.text =
      { method := "GET", path := "atc/worklists/" ++ resp0.text,
        params := [("includeExemptedFindings", "false")],
        accept := "application/atc.worklist.v1+xml",
        contentType := none, body := none } :=
  ⟨run_for_ok_eq (ChecksRunner.new net v) ⟨net, v, some resp0.text⟩
      [] [createRequest v] obj_sets 100 resp0.text resp1 resp2 x1 x2
      (get_id_uncached_eq net v [] resp0 h0) h1 hp1 h2 hp2,
   rfl, rfl⟩

/-- Witness for C2 at the concrete transport `demoNet`. -/
theorem ChecksRunner.run_for_steps_witness :
    (ChecksRunner.new demoNet "STANDARD").run_for [] [] =
      (.ok ⟨RunResponse.deserialize demoDoc, WorkList.deserialize demoDoc⟩,
       ⟨demoNet, "STANDARD", some "0042"⟩,
       [createRequest "STANDARD",
        runsRequest "0042" (RunRequest.serialize ⟨[], 100⟩),
        worklistRequest "0042"])
    ∧ runsRequest "0042" (RunRequest.serialize ⟨[], 100⟩) =
      { method := "POST", path := "atc/runs",
        params := [("worklistId", "0042")], accept := "application/xml",
        contentType := some "application/xml",
        body := some (RunRequest.serialize ⟨[], 100⟩) }
    ∧ worklistRequest "0042" =
      { method := "GET", path := "atc/worklists/" ++ "0042",
        params := [("includeExemptedFindings", "false")],
        accept := "application/atc.worklist.v1+xml",
        contentType := none, body := none } :=
  ChecksRunner.run_for_steps demoNet "STANDARD" [] demoResp demoResp demoResp
    demoDoc demoDoc rfl rfl rfl rfl rfl

/--
C6: a transport failure raised by the connection at the run-submission step
or at the result-fetch step of `run_for` propagates to the caller with its
payload unchanged; nothing is caught or translated into a different error,
and the trace shows the failing request is not retried.
-/
theorem ChecksRunner.run_for_propagates_transport_errors {ε : Type}
    (net : Net ε) (v wid : String) (tr tr' : List Request)
    (obj_sets : List Xml) (mv : Nat) (e e' : ε) (resp1 : Response) (x1 : Xml)
    (hsub : net tr (runsRequest wid (RunRequest.serialize ⟨obj_sets, mv⟩)) =
      .error e)
    (hsub' : net tr' (runsRequest wid (RunRequest.serialize ⟨obj_sets, mv⟩)) =
      .ok resp1)
    (hp1 : resp1.parsed = some x1)
    (hfetch : net (tr' ++ [runsRequest wid (RunRequest.serialize ⟨obj_sets, mv⟩)])
      (worklistRequest wid) = .error e') :
    ChecksRunner.run_for ⟨net, v, some wid⟩ tr obj_sets mv =
      (.error (.transport e), ⟨net, v, some wid⟩,
       tr ++ [runsRequest wid (RunRequest.serialize ⟨obj_sets, mv⟩)])
    ∧ ChecksRunner.run_for ⟨net, v, some wid⟩ tr' obj_sets mv =
      (.error (.transport e'), ⟨net, v, some wid⟩,
       tr' ++ [runsRequest wid (RunRequest.serialize ⟨obj_sets, mv⟩),
               worklistRequest wid]) := by
  constructor
  · simp [ChecksRunner.run_for, ChecksRunner.get_id, hsub]
  · simp [ChecksRunner.run_for, ChecksRunner.get_id, hsub', hp1, hfetch]


/-- Witness for C6 at the concrete transport `demoFailNet`: the submit step
fails on the empty history, and on a later history the submit succeeds but
the fetch (a GET) fails. -/
theorem ChecksRunner.run_for_propagates_transport_errors_witness :
    ChecksRunner.run_for ⟨demoFailNet, "STANDARD", some "0042"⟩ [] [] 100 =
      (.error (.transport ()), ⟨demoFailNet, "STANDARD", some "0042"⟩,
       [runsRequest "0042" (RunRequest.serialize ⟨[], 100⟩)])
    ∧ ChecksRunner.run_for ⟨demoFailNet, "STANDARD", some "0042"⟩
        [createRequest "STANDARD"] [] 100 =
      (.error (.transport ()), ⟨demoFailNet, "STANDARD", some "0042"⟩,
       [createRequest "STANDARD",
        runsRequest "0042" (RunRequest.serialize ⟨[], 100⟩),
        worklistRequest "0042"]) :=
  ChecksRunner.run_for_propagates_transport_errors demoFailNet "STANDARD"
    "0042" [] [createRequest "STANDARD"] [] 100 () () demoResp demoDoc
    rfl rfl rfl rfl




/-- Helper: one `_get_id` call preserves the connection and the variant,
and never overwrites a cached identifier. -/
theorem get_id_preserves {ε : Type} (st : ChecksRunner ε) (tr : List Request) :
    (st.get_id tr).2.1.connection = st.connection ∧
    (st.get_id tr).2.1.variant = st.variant ∧
    ∀ w, st.worklist_id = some w → (st.get_id tr).2.1.worklist_id = some w := by
  rcases hw : st.worklist_id with _ | i <;>
    simp only [ChecksRunner.get_id, hw]
  · cases hnet : st.connection tr (createRequest st.variant) <;> simp
  · simp

/-- Helper: `run_for` ends in the same runner state as the `_get_id` call
it starts with, whatever the later steps do. -/
theorem run_for_state_eq {ε : Type} (st : ChecksRunner ε) (tr : List Request)
    (o : List Xml) (mv : Nat) :
    (st.run_for tr o mv).2.1 = (st.get_id tr).2.1 := by
  unfold ChecksRunner.run_for
  rcases hid : st.get_id tr with ⟨r, st1, tr1⟩
  rcases r with e | wid
  · rfl
  · dsimp only
    split
    · rfl
    · split
      · rfl
      · split
        · rfl
        · split <;> rfl

/-- Helper: one operation preserves the connection and the variant and
never overwrites a cached identifier. -/
theorem applyOp_preserves {ε : Type} (st : ChecksRunner ε) (tr : List Request)
    (op : RunnerOp) :
    (st.applyOp tr op).1.connection = st.connection ∧
    (st.applyOp tr op).1.variant = st.variant ∧
    ∀ w, st.worklist_id = some w → (st.applyOp tr op).1.worklist_id = some w := by
  rcases op with _ | ⟨o, mv⟩
  · exact get_id_preserves st tr
  · have h := run_for_state_eq st tr o mv
    simp only [ChecksRunner.applyOp, h]
    exact get_id_preserves st tr

/-- Helper: a sequence of operations preserves the connection and the
variant and never overwrites a cached identifier. -/
theorem applyOps_preserves {ε : Type} (ops : List RunnerOp)
    (st : ChecksRunner ε) (tr : List Request) :
    (st.applyOps tr ops).1.connection = st.connection ∧
    (st.applyOps tr ops).1.variant = st.variant ∧
    ∀ w, st.worklist_id = some w → (st.applyOps tr ops).1.worklist_id = some w := by
  induction ops generalizing st tr with
  | nil => simp [ChecksRunner.applyOps]
  | cons op ops ih =>
    obtain ⟨hc, hv, hw⟩ := applyOp_preserves st tr op
    obtain ⟨ihc, ihv, ihw⟩ := ih (st.applyOp tr op).1 (st.applyOp tr op).2
    refine ⟨?_, ?_, ?_⟩
    · simpa [ChecksRunner.applyOps, ihc] using hc
    · simpa [ChecksRunner.applyOps, ihv] using hv
    · intro w hww
      have := ihw w (hw w hww)
      simpa [ChecksRunner.applyOps] using this

/--
C10: once the cached work-list identifier holds a value, no sequence of
`_get_id` and `run_for` calls (failing ones included) ever modifies it
again, and the connection and variant fixed at construction are never
modified by any sequence of operations on any runner state.
-/
theorem ChecksRunner.fields_immutable_after_cache {ε : Type}
    (st : ChecksRunner ε) (tr : List Request) (ops : List RunnerOp)
    (w : String) (hw : st.worklist_id = some w) :
    (∀ (st' : ChecksRunner ε) (tr' : List Request),
      (st'.applyOps tr' ops).1.connection = st'.connection ∧
      (st'.applyOps tr' ops).1.variant = st'.variant)
    ∧ (st.applyOps tr ops).1.worklist_id = some w := by
  refine ⟨fun st' tr' => ?_, (applyOps_preserves ops st tr).2.2 w hw⟩
  obtain ⟨h1, h2, _⟩ := applyOps_preserves ops st' tr'
  exact ⟨h1, h2⟩

/-- Witness for C10: a cached runner on a failing transport, running a
check run (whose fetch step fails) and an identifier call. -/
theorem ChecksRunner.fields_immutable_after_cache_witness :
    (∀ (st' : ChecksRunner Unit) (tr' : List Request),
      (st'.applyOps tr' [.runFor [] 100, .getId]).1.connection = st'.connection ∧
      (st'.applyOps tr' [.runFor [] 100, .getId]).1.variant = st'.variant)
    ∧ (ChecksRunner.applyOps ⟨getFailNet, "STANDARD", some "0042"⟩ []
        [.runFor [] 100, .getId]).1.worklist_id = some "0042" :=
  ChecksRunner.fields_immutable_after_cache
    ⟨getFailNet, "STANDARD", some "0042"⟩ [] [.runFor [] 100, .getId]
    "0042" rfl

/--
C4: serializing a `RunRequest` with `max_verdicts = 100` and one object-set
selection yields a document rooted at the namespace-qualified `run` element
of the atc namespace, carrying `maximumVerdicts="100"` and exactly one
nested `objectSets` child containing the selection; deserializing that
exact document into a fresh `RunRequest`-equivalent target recovers
`max_verdicts = 100` (and the selection).
-/
theorem RunRequest.serialize_roundtrip (sel : Xml) :
    RunRequest.serialize ⟨[sel], 100⟩ =
      .elem "atc:run" [("maximumVerdicts", "100")]
        [.elem "objectSets" [] [sel]]
    ∧ RunRequest.objtype.qualifiedRoot = "atc:run"
    ∧ RunRequest.objtype.xmlns = ⟨"atc", "http://www.sap.com/adt/atc"⟩
    ∧ (RunRequest.serialize ⟨[sel], 100⟩).attr "maximumVerdicts" = some "100"
    ∧ (RunRequest.serialize ⟨[sel], 100⟩).childrenNamed "objectSets" =
        [.elem "objectSets" [] [sel]]
    ∧ (RunRequest.deserialize (RunRequest.serialize ⟨[sel], 100⟩)).max_verdicts =
        some 100
    ∧ (RunRequest.deserialize (RunRequest.serialize ⟨[sel], 100⟩)).sets = [sel] := by
  have h : toString (100 : Nat) = "100" := rfl
  have hparse : parseDecimal "100" = some 100 := rfl
  refine ⟨?_, rfl, rfl, ?_, ?_, ?_, ?_⟩ <;>
    simp [RunRequest.serialize, RunRequest.deserialize, RunRequest.objtype,
      ADTObjectType.qualifiedRoot, XMLNS_ATC, Xml.attr, Xml.childrenNamed,
      Xml.childList, Xml.isElemNamed, Xml.firstChildNamed, h, hparse]


/--
C5: deserializing a run-response document carrying a `worklistId` text node
`"4711"`, a `worklistTimestamp` text node `"20230101000000"` and zero
`info` elements yields `worklist_id = "4711"`,
`timestamp = "20230101000000"`, and an infos field that is present and
empty (`some []`), not absent.
-/
theorem RunResponse.deserialize_scenario :
    RunResponse.deserialize runResponseDoc =
      { worklist_id := some "4711", timestamp := some "20230101000000",
        infos := some [] } :=
  rfl


/-- Helper: folding the customizing handler over an event list leaves
`system_check_variant` at its incoming value when no event matches, and at
the `value` attribute of the last matching event otherwise. -/
theorem foldl_startElement_scv
    (events : List (String × List (String × String))) (c : Customizing) :
    (events.foldl
      (fun c ev => ATCCustomizingXMLHandler.startElement c ev.1 ev.2)
      c).system_check_variant =
      match events.reverse.find? isSCVProperty with
      | none => c.system_check_variant
      | some ev => attrsGet ev.2 "value" := by
  induction events using List.reverseRecOn with
  | nil => rfl
  | append_singleton es e ih =>
    rw [List.foldl_append, List.reverse_append]
    simp only [List.foldl_cons, List.foldl_nil, List.reverse_singleton,
      List.singleton_append]
    by_cases h : isSCVProperty e = true
    · have h' : e.1 = "property" ∧ attrsGet e.2 "name" = some "systemCheckVariant" := by
        simpa [isSCVProperty] using h
      rw [List.find?_cons_of_pos _ h]
      simp [ATCCustomizingXMLHandler.startElement, h']
    · have h' : ¬(e.1 = "property" ∧ attrsGet e.2 "name" = some "systemCheckVariant") := by
        simpa [isSCVProperty] using h
      rw [List.find?_cons_of_neg _ (by simpa using h)]
      rw [← ih]
      simp [ATCCustomizingXMLHandler.startElement, h']

/--
C9: `fetch_customizing` returns a `Customizing` whose
`system_check_variant` is the `value` attribute of the last `property`
element (in document order) whose `name` attribute is `systemCheckVariant`;
it is `none` when no such element exists, and a matching element lacking a
`value` attribute sets it to `none`, overwriting any earlier value.
-/
theorem fetch_customizing_last_property_wins (doc : Xml) :
    (fetch_customizing doc).system_check_variant =
      match doc.startEvents.reverse.find? isSCVProperty with
      | none => none
      | some ev => attrsGet ev.2 "value" :=
  foldl_startElement_scv doc.startEvents ⟨none⟩

/-- Helper: one interleaving step never increases the number of creation
requests plus the creations still possible. -/
theorem scheduleStep_bound (r1 r2 : String) (s : TwoCallerState) (who : Bool) :
    (scheduleStep r1 r2 s who).creations +
      canCreate (scheduleStep r1 r2 s who).pc1 +
      canCreate (scheduleStep r1 r2 s who).pc2 ≤
    s.creations + canCreate s.pc1 + canCreate s.pc2 := by
  rcases who
  · rcases hpc : s.pc1 with _ | _ | r | _ | r <;>
      rcases hc : s.cache with _ | i <;>
        (simp [scheduleStep, getIdStep, hpc, hc, canCreate]; try omega)
  · rcases hpc : s.pc2 with _ | _ | r | _ | r <;>
      rcases hc : s.cache with _ | i <;>
        (simp [scheduleStep, getIdStep, hpc, hc, canCreate]; try omega)

/-- Helper: along any schedule, creation requests plus creations still
possible never increase. -/
theorem runSchedule_bound (r1 r2 : String) (sched : List Bool)
    (s : TwoCallerState) :
    (runSchedule r1 r2 s sched).creations +
      canCreate (runSchedule r1 r2 s sched).pc1 +
      canCreate (runSchedule r1 r2 s sched).pc2 ≤
    s.creations + canCreate s.pc1 + canCreate s.pc2 := by
  induction sched generalizing s with
  | nil => simp [runSchedule]
  | cons w ws ih =>
    have h1 := ih (scheduleStep r1 r2 s w)
    have h2 := scheduleStep_bound r1 r2 s w
    calc (runSchedule r1 r2 s (w :: ws)).creations +
          canCreate (runSchedule r1 r2 s (w :: ws)).pc1 +
          canCreate (runSchedule r1 r2 s (w :: ws)).pc2
        = (runSchedule r1 r2 (scheduleStep r1 r2 s w) ws).creations +
          canCreate (runSchedule r1 r2 (scheduleStep r1 r2 s w) ws).pc1 +
          canCreate (runSchedule r1 r2 (scheduleStep r1 r2 s w) ws).pc2 := rfl
      _ ≤ _ := le_trans h1 h2

/--
C8 counterexample: the claim that two concurrent callers of `_get_id` can
never cause two creation requests is false for this code: the unsynchronized
check-and-set admits the interleaving where both threads pass the
`worklist_id is None` check before either assignment, and that execution
issues two creation requests.
-/
theorem get_id_concurrent_two_creations :
    ¬ ∀ sched : List Bool,
        (runSchedule "A" "B" twoCallersStart sched).creations ≤ 1 :=
  fun h =>
    absurd (h [false, true, false, true, false, true, false, true])
      (by decide)

/--
C8 amended: `_get_id` performs no mutual exclusion around the cached
identifier's check-and-set; at-most-once creation holds when the two
callers do not overlap (a serialized schedule issues one creation request
and both callers return the one identifier), each caller issues at most one
creation request (so at most two in total), but overlapping callers can
each issue one: the fully interleaved schedule issues two.
-/
theorem get_id_concurrent_bound (r1 r2 : String) :
    (∀ sched : List Bool,
      (runSchedule r1 r2 twoCallersStart sched).creations ≤ 2)
    ∧ runSchedule r1 r2 twoCallersStart
        [false, false, false, false, true, true, true, true] =
      { cache := some r1, creations := 1,
        pc1 := .finished (some r1), pc2 := .finished (some r1) }
    ∧ runSchedule r1 r2 twoCallersStart
        [false, true, false, true, false, true, false, true] =
      { cache := some r2, creations := 2,
        pc1 := .finished (some r2), pc2 := .finished (some r2) } := by
  refine ⟨fun sched => ?_, rfl, rfl⟩
  have hb := runSchedule_bound r1 r2 sched twoCallersStart
  have hs : twoCallersStart.creations + canCreate twoCallersStart.pc1 +
      canCreate twoCallersStart.pc2 = 2 := rfl
  rw [hs] at hb
  omega
